import Mathlib

/-!
Shallow embedding of `build/generate_icons.py`: a build-time utility that
converts an SVG application icon into PNG files at several sizes and a
multi-resolution Windows ICO file, with an optional one-time backup copy.

The filesystem is modelled as an association list from path strings to
entries (file content plus a modification-time stamp).  Each operation of
the script returns the updated filesystem, the list of observable events
(file writes, directory creation, copies, console prints) and an optional
error, modelling an uncaught Python exception.  External library calls
(`cairosvg.svg2png`, `PIL.Image.open/resize/save`, `shutil.copy2`,
`Path.mkdir(exist_ok=True)`) are modelled at the interface level: a
rasterisation produces a square raster of the requested size tagged with
its provenance, a resize records the resampling filter used, a save of an
ICO records the ordered list of embedded frames, and `copy2` copies the
whole entry (content and timestamp).
-/

namespace IconGen

/-- Resampling filters of `PIL.Image.Resampling`; the script uses `LANCZOS`. -/
inductive Resampling where
  | lanczos
  | nearest
  | bilinear
deriving DecidableEq, Repr

/-- Provenance of raster pixel data: either rendered directly from SVG content
at a given size (`cairosvg.svg2png`), or obtained by resizing another raster
with a given filter (`PIL.Image.resize`). -/
inductive Prov where
  | fromSvg (content : Nat) (size : Nat)
  | resized (orig : Prov) (w h : Nat) (f : Resampling)
deriving DecidableEq, Repr

/-- A raster image: pixel dimensions plus the provenance of its data. -/
structure Raster where
  width : Nat
  height : Nat
  data : Prov
deriving DecidableEq, Repr

/-- `PIL` `img.resize((w, h), filter)`. -/
def resizeImg (r : Raster) (w h : Nat) (f : Resampling) : Raster :=
  ⟨w, h, .resized r.data w h f⟩

/-- Content of a file on disk. -/
inductive File where
  | svg (content : Nat)
  | png (r : Raster)
  | ico (frames : List Raster)
  | dir
  | other
deriving DecidableEq, Repr

/-- A filesystem entry: the file plus its modification time (`copy2`
preserves it, fresh writes stamp the current time). -/
structure Entry where
  file : File
  mtime : Nat
deriving DecidableEq, Repr

/-- The filesystem: an association list from paths to entries; a write
shadows earlier bindings for the same path. -/
abbrev FS := List (String × Entry)

def lookupFS : FS → String → Option Entry
  | [], _ => none
  | (q, e) :: rest, p => if q = p then some e else lookupFS rest p

def writeFS (fs : FS) (p : String) (e : Entry) : FS := (p, e) :: fs

/-- `Path.exists()`. -/
def pathExists (fs : FS) (p : String) : Bool := (lookupFS fs p).isSome

/-- Observable events of a run. -/
inductive Event where
  | print (msg : String)
  | writeFile (path : String)
  | mkdir (path : String)
  | copyFile (src dst : String)
deriving DecidableEq, Repr

/-- Uncaught Python exceptions the modelled library calls can raise. -/
inductive Err where
  | svgNotFound (path : String)
  | svgNotParseable (path : String)
  | cannotOpen (path : String)
  | fileExists (path : String)
deriving DecidableEq, Repr

/-- Result of a (partial) run: the filesystem as mutated so far, the events
so far, and `some e` when an exception terminated the run. -/
abbrev RunResult := FS × List Event × Option Err

/-- Sequencing: run the continuation only when no exception occurred;
events accumulate, and on an exception the effects so far are kept. -/
def andThen (r : RunResult) (k : FS → RunResult) : RunResult :=
  match r with
  | (fs, evs, none) =>
    match k fs with
    | (fs2, evs2, e) => (fs2, evs ++ evs2, e)
  | (fs, evs, some e) => (fs, evs, some e)

/-- `Path` `/` join. -/
def pathJoin (d f : String) : String := d ++ "/" ++ f

def svgPath (d : String) : String := pathJoin d "appicon.svg"
def png512Path (d : String) : String := pathJoin d "appicon.png"
def sizePngPath (d : String) (s : Nat) : String :=
  pathJoin d ("icon_" ++ toString s ++ ".png")
def winDirPath (d : String) : String := pathJoin d "windows"
def icoFilePath (d : String) : String := pathJoin (winDirPath d) "icon.ico"
def backupPath (d : String) : String := pathJoin d "appicon.png.backup"

/-- The PNG sizes generated in step 2 of `main`. -/
def png_sizes : List Nat := [256, 128, 64]

/-- The sizes embedded in the ICO, as listed in `create_ico`. -/
def ico_sizes : List (Nat × Nat) :=
  [(256, 256), (128, 128), (64, 64), (48, 48), (32, 32), (16, 16)]

def depsMsg1 : String := "missing dependencies, please install first:"
def depsMsg2 : String := "pip install cairosvg pillow"
def missingSrcMsg (p : String) : String := "error: cannot find " ++ p
def startMsg : String := "start generating icon files"
def genMsg (p : String) : String := "generated " ++ p
def icoMsg (p : String) : String := "generated ico " ++ p
def backupMsg (p : String) : String := "backed up original icon to " ++ p
def doneMsg : String := "icon generation done"

/-- `svg_to_png(svg_path, png_path, size)`: renders the SVG at `svg_path`
to a `size` x `size` PNG at `png_path` via `cairosvg.svg2png`, then prints.
Raises if the source is absent or not parseable as SVG. -/
def svg_to_png (fs : FS) (svg_path png_path : String) (size t : Nat) : RunResult :=
  match lookupFS fs svg_path with
  | some e =>
    match e.file with
    | .svg c =>
      (writeFS fs png_path ⟨.png ⟨size, size, .fromSvg c size⟩, t⟩,
       [.writeFile png_path, .print (genMsg png_path)], none)
    | _ => (fs, [], some (.svgNotParseable svg_path))
  | none => (fs, [], some (.svgNotFound svg_path))

/-- `create_ico(png_path, ico_path)`: opens the raster at `png_path`,
resizes it to each of `ico_sizes` with the LANCZOS filter, and saves one
ICO file embedding all frames in that order (`icons[0].save(...,
append_images=icons[1:])`), overwriting any existing destination.
Raises if the source raster cannot be opened. -/
def create_ico (fs : FS) (png_path ico_path : String) (t : Nat) : RunResult :=
  match lookupFS fs png_path with
  | some e =>
    match e.file with
    | .png img =>
      let icons := ico_sizes.map (fun sz => resizeImg img sz.1 sz.2 .lanczos)
      (writeFS fs ico_path ⟨.ico icons, t⟩,
       [.writeFile ico_path, .print (icoMsg ico_path)], none)
    | _ => (fs, [], some (.cannotOpen png_path))
  | none => (fs, [], some (.cannotOpen png_path))

/-- `Path.mkdir(exist_ok=True)`: creates the directory when the path is
free, does nothing when a directory is already there, and raises
`FileExistsError` when a non-directory occupies the path. -/
def mkdir_exist_ok (fs : FS) (p : String) (t : Nat) : RunResult :=
  match lookupFS fs p with
  | some e =>
    match e.file with
    | .dir => (fs, [], none)
    | _ => (fs, [], some (.fileExists p))
  | none => (writeFS fs p ⟨.dir, t⟩, [.mkdir p], none)

/-- `shutil.copy2(src, dst)`: copies the file, preserving metadata
(the whole entry, timestamp included). -/
def copy2 (fs : FS) (src dst : String) : RunResult :=
  match lookupFS fs src with
  | some e => (writeFS fs dst e, [.copyFile src dst], none)
  | none => (fs, [], some (.cannotOpen src))

/-- Step 2 of `main`: `for size in [256, 128, 64]: svg_to_png(...)`. -/
def gen_png_loop (d : String) (fs : FS) (t : Nat) : RunResult :=
  png_sizes.foldl
    (fun acc s => andThen acc (fun fs0 => svg_to_png fs0 (svgPath d) (sizePngPath d s) s t))
    (fs, [], none)

/-- Step 4 of `main`: back up `appicon.png` to `appicon.png.backup` when
the PNG exists and the backup does not. -/
def backup_step (d : String) (fs : FS) : RunResult :=
  if pathExists fs (png512Path d) && !pathExists fs (backupPath d) then
    andThen (copy2 fs (png512Path d) (backupPath d))
      (fun fs2 => (fs2, [.print (backupMsg (backupPath d))], none))
  else (fs, [], none)

/-- The final summary prints of `main`. -/
def summaryEvents (d : String) : List Event :=
  [.print doneMsg,
   .print (png512Path d), .print (sizePngPath d 256), .print (sizePngPath d 128),
   .print (sizePngPath d 64), .print (icoFilePath d)]

/-- `main()`: guarded by `HAS_DEPS` and by the existence of `appicon.svg`,
then the linear pipeline: 512 PNG, three smaller PNGs, `windows` dir,
ICO, conditional backup, summary. `d` is the script directory, `t` the
current time stamped on fresh writes. -/
def main (hasDeps : Bool) (d : String) (fs : FS) (t : Nat) : RunResult :=
  if hasDeps = false then (fs, [], none)
  else if pathExists fs (svgPath d) = false then
    (fs, [.print (missingSrcMsg (svgPath d))], none)
  else
    andThen (fs, [.print startMsg], none) (fun fs0 =>
    andThen (svg_to_png fs0 (svgPath d) (png512Path d) 512 t) (fun fs1 =>
    andThen (gen_png_loop d fs1 t) (fun fs2 =>
    andThen (mkdir_exist_ok fs2 (winDirPath d) t) (fun fs3 =>
    andThen (create_ico fs3 (png512Path d) (icoFilePath d) t) (fun fs4 =>
    andThen (backup_step d fs4) (fun fs5 =>
    (fs5, summaryEvents d, none)))))))

/-- The whole script run: the `try import` at module load prints the
dependency guidance when the libraries are missing, then `main()` runs. -/
def runScript (hasDeps : Bool) (d : String) (fs : FS) (t : Nat) : RunResult :=
  match main hasDeps d fs t with
  | (fs2, evs, e) =>
    (fs2, (if hasDeps then [] else [.print depsMsg1, .print depsMsg2]) ++ evs, e)

/-- Paths written (as files) during a run: fresh writes and copy targets.
Directory creation and console prints produce no file. -/
def writtenPaths (evs : List Event) : List String :=
  evs.filterMap fun ev =>
    match ev with
    | .writeFile p => some p
    | .copyFile _ dst => some dst
    | _ => none

/-- Classification of what occupies a path, ignoring file contents. -/
inductive PathStatus where
  | absent
  | svgFile
  | directory
  | otherFile
deriving DecidableEq, Repr

def statusOf (fs : FS) (p : String) : PathStatus :=
  match lookupFS fs p with
  | none => .absent
  | some e =>
    match e.file with
    | .svg _ => .svgFile
    | .dir => .directory
    | _ => .otherFile

/-- Status of the source-vector path as coarse as the run can observe it:
absent, a parseable SVG, or present but not parseable as SVG (whatever
kind of entry occupies it). -/
inductive SrcStatus where
  | absent
  | parseableSvg
  | presentUnparseable
deriving DecidableEq, Repr

def srcStatusOf (fs : FS) (p : String) : SrcStatus :=
  match lookupFS fs p with
  | none => .absent
  | some e =>
    match e.file with
    | .svg _ => .parseableSvg
    | _ => .presentUnparseable

/-- Status of the `windows` path as coarse as the run can observe it:
absent, a directory, or occupied by a non-directory (of whatever kind). -/
inductive WinStatus where
  | absent
  | directory
  | occupiedNonDir
deriving DecidableEq, Repr

def winStatusOf (fs : FS) (p : String) : WinStatus :=
  match lookupFS fs p with
  | none => .absent
  | some e =>
    match e.file with
    | .dir => .directory
    | _ => .occupiedNonDir

/-! ### Basic filesystem lemmas -/

@[simp] theorem lookupFS_write_same (fs : FS) (p : String) (e : Entry) :
    lookupFS (writeFS fs p e) p = some e := by
  simp [lookupFS, writeFS]

theorem lookupFS_write_ne (fs : FS) (p q : String) (e : Entry) (h : p ≠ q) :
    lookupFS (writeFS fs p e) q = lookupFS fs q := by
  simp [lookupFS, writeFS, h]

@[simp] theorem lookupFS_write (fs : FS) (p q : String) (e : Entry) :
    lookupFS (writeFS fs p e) q = if p = q then some e else lookupFS fs q := by
  simp [lookupFS, writeFS]

/-! ### Path disequalities -/

theorem append_cancel_left_str (s a b : String) (h : s ++ a = s ++ b) : a = b := by
  have h2 := congrArg String.data h
  simp [String.data_append] at h2
  exact String.ext h2

theorem pathJoin_inj (d a b : String) (h : pathJoin d a = pathJoin d b) : a = b := by
  unfold pathJoin at h
  rw [String.append_assoc, String.append_assoc] at h
  exact append_cancel_left_str _ _ _ (append_cancel_left_str _ _ _ h)

theorem pathJoin_ne (d : String) (a b : String) (h : a ≠ b) :
    pathJoin d a ≠ pathJoin d b :=
  fun he => h (pathJoin_inj d a b he)

theorem icoFilePath_eq (d : String) : icoFilePath d = pathJoin d "windows/icon.ico" := by
  unfold icoFilePath winDirPath pathJoin
  rw [String.append_assoc, String.append_assoc, String.append_assoc]
  conv_rhs => rw [String.append_assoc]
  congr 1

@[simp] theorem pathJoin_eq_iff (d a b : String) :
    pathJoin d a = pathJoin d b ↔ a = b :=
  ⟨pathJoin_inj d a b, fun h => by rw [h]⟩

theorem sizePngPath_256 (d : String) : sizePngPath d 256 = pathJoin d "icon_256.png" :=
  congrArg (pathJoin d) (by decide)

theorem sizePngPath_128 (d : String) : sizePngPath d 128 = pathJoin d "icon_128.png" :=
  congrArg (pathJoin d) (by decide)

theorem sizePngPath_64 (d : String) : sizePngPath d 64 = pathJoin d "icon_64.png" :=
  congrArg (pathJoin d) (by decide)

/-- All seven paths the script touches are pairwise distinct; the following
battery records the disequalities the run lemmas need. -/
@[simp] theorem ne_png512_svg (d : String) : png512Path d ≠ svgPath d :=
  pathJoin_ne d _ _ (by decide)

@[simp] theorem ne_i256_svg (d : String) : sizePngPath d 256 ≠ svgPath d :=
  pathJoin_ne d _ _ (by decide)

@[simp] theorem ne_i128_svg (d : String) : sizePngPath d 128 ≠ svgPath d :=
  pathJoin_ne d _ _ (by decide)

@[simp] theorem ne_i64_svg (d : String) : sizePngPath d 64 ≠ svgPath d :=
  pathJoin_ne d _ _ (by decide)

@[simp] theorem ne_png512_win (d : String) : png512Path d ≠ winDirPath d :=
  pathJoin_ne d _ _ (by decide)

@[simp] theorem ne_i256_win (d : String) : sizePngPath d 256 ≠ winDirPath d :=
  pathJoin_ne d _ _ (by decide)

@[simp] theorem ne_i128_win (d : String) : sizePngPath d 128 ≠ winDirPath d :=
  pathJoin_ne d _ _ (by decide)

@[simp] theorem ne_i64_win (d : String) : sizePngPath d 64 ≠ winDirPath d :=
  pathJoin_ne d _ _ (by decide)

@[simp] theorem ne_i256_png512 (d : String) : sizePngPath d 256 ≠ png512Path d :=
  pathJoin_ne d _ _ (by decide)

@[simp] theorem ne_i128_png512 (d : String) : sizePngPath d 128 ≠ png512Path d :=
  pathJoin_ne d _ _ (by decide)

@[simp] theorem ne_i64_png512 (d : String) : sizePngPath d 64 ≠ png512Path d :=
  pathJoin_ne d _ _ (by decide)

@[simp] theorem ne_win_png512 (d : String) : winDirPath d ≠ png512Path d :=
  pathJoin_ne d _ _ (by decide)

@[simp] theorem ne_ico_png512 (d : String) : icoFilePath d ≠ png512Path d := by
  rw [icoFilePath_eq]; exact pathJoin_ne d _ _ (by decide)

@[simp] theorem ne_backup_png512 (d : String) : backupPath d ≠ png512Path d :=
  pathJoin_ne d _ _ (by decide)

@[simp] theorem ne_png512_backup (d : String) : png512Path d ≠ backupPath d :=
  pathJoin_ne d _ _ (by decide)

@[simp] theorem ne_i256_backup (d : String) : sizePngPath d 256 ≠ backupPath d :=
  pathJoin_ne d _ _ (by decide)

@[simp] theorem ne_i128_backup (d : String) : sizePngPath d 128 ≠ backupPath d :=
  pathJoin_ne d _ _ (by decide)

@[simp] theorem ne_i64_backup (d : String) : sizePngPath d 64 ≠ backupPath d :=
  pathJoin_ne d _ _ (by decide)

@[simp] theorem ne_win_backup (d : String) : winDirPath d ≠ backupPath d :=
  pathJoin_ne d _ _ (by decide)

@[simp] theorem ne_ico_backup (d : String) : icoFilePath d ≠ backupPath d := by
  rw [icoFilePath_eq]; exact pathJoin_ne d _ _ (by decide)

@[simp] theorem ne_backup_i256 (d : String) : backupPath d ≠ sizePngPath d 256 :=
  pathJoin_ne d _ _ (by decide)

@[simp] theorem ne_ico_i256 (d : String) : icoFilePath d ≠ sizePngPath d 256 := by
  rw [icoFilePath_eq]; exact pathJoin_ne d _ _ (by decide)

@[simp] theorem ne_win_i256 (d : String) : winDirPath d ≠ sizePngPath d 256 :=
  pathJoin_ne d _ _ (by decide)

@[simp] theorem ne_i64_i256 (d : String) : sizePngPath d 64 ≠ sizePngPath d 256 :=
  pathJoin_ne d _ _ (by decide)

@[simp] theorem ne_i128_i256 (d : String) : sizePngPath d 128 ≠ sizePngPath d 256 :=
  pathJoin_ne d _ _ (by decide)

@[simp] theorem ne_backup_i128 (d : String) : backupPath d ≠ sizePngPath d 128 :=
  pathJoin_ne d _ _ (by decide)

@[simp] theorem ne_ico_i128 (d : String) : icoFilePath d ≠ sizePngPath d 128 := by
  rw [icoFilePath_eq]; exact pathJoin_ne d _ _ (by decide)

@[simp] theorem ne_win_i128 (d : String) : winDirPath d ≠ sizePngPath d 128 :=
  pathJoin_ne d _ _ (by decide)

@[simp] theorem ne_i64_i128 (d : String) : sizePngPath d 64 ≠ sizePngPath d 128 :=
  pathJoin_ne d _ _ (by decide)

@[simp] theorem ne_backup_i64 (d : String) : backupPath d ≠ sizePngPath d 64 :=
  pathJoin_ne d _ _ (by decide)

@[simp] theorem ne_ico_i64 (d : String) : icoFilePath d ≠ sizePngPath d 64 := by
  rw [icoFilePath_eq]; exact pathJoin_ne d _ _ (by decide)

@[simp] theorem ne_win_i64 (d : String) : winDirPath d ≠ sizePngPath d 64 :=
  pathJoin_ne d _ _ (by decide)

@[simp] theorem ne_backup_ico (d : String) : backupPath d ≠ icoFilePath d := by
  rw [icoFilePath_eq]; exact pathJoin_ne d _ _ (by decide)

@[simp] theorem ne_win_ico (d : String) : winDirPath d ≠ icoFilePath d := by
  rw [icoFilePath_eq]; exact pathJoin_ne d _ _ (by decide)

@[simp] theorem ne_i64_ico (d : String) : sizePngPath d 64 ≠ icoFilePath d := by
  rw [icoFilePath_eq]; exact pathJoin_ne d _ _ (by decide)

@[simp] theorem ne_i128_ico (d : String) : sizePngPath d 128 ≠ icoFilePath d := by
  rw [icoFilePath_eq]; exact pathJoin_ne d _ _ (by decide)

@[simp] theorem ne_i256_ico (d : String) : sizePngPath d 256 ≠ icoFilePath d := by
  rw [icoFilePath_eq]; exact pathJoin_ne d _ _ (by decide)

@[simp] theorem ne_png512_ico (d : String) : png512Path d ≠ icoFilePath d := by
  rw [icoFilePath_eq]; exact pathJoin_ne d _ _ (by decide)

@[simp] theorem ne_backup_svg (d : String) : backupPath d ≠ svgPath d :=
  pathJoin_ne d _ _ (by decide)

@[simp] theorem ne_ico_svg (d : String) : icoFilePath d ≠ svgPath d := by
  rw [icoFilePath_eq]; exact pathJoin_ne d _ _ (by decide)

@[simp] theorem ne_win_svg (d : String) : winDirPath d ≠ svgPath d :=
  pathJoin_ne d _ _ (by decide)

@[simp] theorem ne_backup_win (d : String) : backupPath d ≠ winDirPath d :=
  pathJoin_ne d _ _ (by decide)

@[simp] theorem ne_ico_win (d : String) : icoFilePath d ≠ winDirPath d := by
  rw [icoFilePath_eq]; exact pathJoin_ne d _ _ (by decide)

/-! ### Normal forms of a run of `main` -/

/-- Entry written by `svg_to_png` for content `c` at size `s`, time `t`. -/
def sizeEntry (c s t : Nat) : Entry := ⟨.png ⟨s, s, .fromSvg c s⟩, t⟩

/-- The six frames `create_ico` embeds, in the order of `ico_sizes`. -/
def icoFrames (img : Raster) : List Raster :=
  ico_sizes.map (fun sz => resizeImg img sz.1 sz.2 .lanczos)

/-- The filesystem after a complete successful run of `main`. -/
def successFS (d : String) (fs : FS) (t c : Nat) : FS :=
  let fs1 := writeFS fs (png512Path d) (sizeEntry c 512 t)
  let fs2 := writeFS fs1 (sizePngPath d 256) (sizeEntry c 256 t)
  let fs3 := writeFS fs2 (sizePngPath d 128) (sizeEntry c 128 t)
  let fs4 := writeFS fs3 (sizePngPath d 64) (sizeEntry c 64 t)
  let fs5 := if pathExists fs (winDirPath d) then fs4 else writeFS fs4 (winDirPath d) ⟨.dir, t⟩
  let fs6 := writeFS fs5 (icoFilePath d) ⟨.ico (icoFrames ⟨512, 512, .fromSvg c 512⟩), t⟩
  if pathExists fs (backupPath d) then fs6 else writeFS fs6 (backupPath d) (sizeEntry c 512 t)

/-- The event trace of a complete successful run of `main`. -/
def successEvents (d : String) (winAbsent backupAbsent : Bool) : List Event :=
  [.print startMsg,
   .writeFile (png512Path d), .print (genMsg (png512Path d)),
   .writeFile (sizePngPath d 256), .print (genMsg (sizePngPath d 256)),
   .writeFile (sizePngPath d 128), .print (genMsg (sizePngPath d 128)),
   .writeFile (sizePngPath d 64), .print (genMsg (sizePngPath d 64))]
  ++ (if winAbsent then [.mkdir (winDirPath d)] else [])
  ++ [.writeFile (icoFilePath d), .print (icoMsg (icoFilePath d))]
  ++ (if backupAbsent then
        [.copyFile (png512Path d) (backupPath d), .print (backupMsg (backupPath d))]
      else [])
  ++ summaryEvents d

theorem main_no_deps (d : String) (fs : FS) (t : Nat) :
    main false d fs t = (fs, [], none) := by
  simp [main]

theorem main_missing_src (d : String) (fs : FS) (t : Nat)
    (h : lookupFS fs (svgPath d) = none) :
    main true d fs t = (fs, [.print (missingSrcMsg (svgPath d))], none) := by
  simp [main, pathExists, h]

theorem main_bad_src (d : String) (fs : FS) (t : Nat) (e : Entry)
    (h : lookupFS fs (svgPath d) = some e) (hne : ∀ c, e.file ≠ File.svg c) :
    main true d fs t = (fs, [.print startMsg], some (.svgNotParseable (svgPath d))) := by
  unfold main
  rw [if_neg (by simp), if_neg (by simp [pathExists, h])]
  rcases e with ⟨f, m⟩
  cases f with
  | svg c => exact absurd rfl (hne c)
  | png r => simp [andThen, svg_to_png, h]
  | ico l => simp [andThen, svg_to_png, h]
  | dir => simp [andThen, svg_to_png, h]
  | other => simp [andThen, svg_to_png, h]

/-- The events of a run that dies at `ico_dir.mkdir()`: everything up to the
four PNG generations. -/
def prefixEvents (d : String) : List Event :=
  [.print startMsg,
   .writeFile (png512Path d), .print (genMsg (png512Path d)),
   .writeFile (sizePngPath d 256), .print (genMsg (sizePngPath d 256)),
   .writeFile (sizePngPath d 128), .print (genMsg (sizePngPath d 128)),
   .writeFile (sizePngPath d 64), .print (genMsg (sizePngPath d 64))]

/-- The filesystem after the four PNG writes of steps 1 and 2. -/
def pipelineFS4 (d : String) (fs : FS) (t c : Nat) : FS :=
  writeFS (writeFS (writeFS (writeFS fs (png512Path d) (sizeEntry c 512 t))
    (sizePngPath d 256) (sizeEntry c 256 t)) (sizePngPath d 128) (sizeEntry c 128 t))
    (sizePngPath d 64) (sizeEntry c 64 t)

theorem main_win_occupied (d : String) (fs : FS) (t c m : Nat) (e : Entry)
    (hsvg : lookupFS fs (svgPath d) = some ⟨.svg c, m⟩)
    (hwin : lookupFS fs (winDirPath d) = some e) (hne : e.file ≠ File.dir) :
    main true d fs t =
      (pipelineFS4 d fs t c, prefixEvents d, some (.fileExists (winDirPath d))) := by
  unfold main
  rw [if_neg (by simp), if_neg (by simp [pathExists, hsvg])]
  rcases e with ⟨f, m2⟩
  cases f with
  | dir => exact absurd rfl hne
  | svg c2 => simp [andThen, svg_to_png, gen_png_loop, png_sizes, mkdir_exist_ok,
      pathExists, hsvg, hwin, pipelineFS4, prefixEvents, sizeEntry]
  | png r => simp [andThen, svg_to_png, gen_png_loop, png_sizes, mkdir_exist_ok,
      pathExists, hsvg, hwin, pipelineFS4, prefixEvents, sizeEntry]
  | ico l => simp [andThen, svg_to_png, gen_png_loop, png_sizes, mkdir_exist_ok,
      pathExists, hsvg, hwin, pipelineFS4, prefixEvents, sizeEntry]
  | other => simp [andThen, svg_to_png, gen_png_loop, png_sizes, mkdir_exist_ok,
      pathExists, hsvg, hwin, pipelineFS4, prefixEvents, sizeEntry]

theorem main_success (d : String) (fs : FS) (t c m : Nat)
    (hsvg : lookupFS fs (svgPath d) = some ⟨.svg c, m⟩)
    (hwin : lookupFS fs (winDirPath d) = none ∨
            ∃ mw, lookupFS fs (winDirPath d) = some ⟨.dir, mw⟩) :
    main true d fs t =
      (successFS d fs t c,
       successEvents d (!pathExists fs (winDirPath d)) (!pathExists fs (backupPath d)),
       none) := by
  have hex : pathExists fs (svgPath d) = true := by simp [pathExists, hsvg]
  rcases hob : lookupFS fs (backupPath d) with _ | eb <;>
  rcases hwin with hwin | ⟨mw, hwin⟩ <;>
  · unfold main
    rw [if_neg (by simp), if_neg (by simp [hex])]
    simp [andThen, svg_to_png, gen_png_loop, png_sizes, mkdir_exist_ok, create_ico,
          backup_step, copy2, pathExists, hsvg, hwin, hob, successFS, successEvents,
          summaryEvents, icoFrames, sizeEntry]

theorem statusOf_absent_iff (fs : FS) (p : String) :
    statusOf fs p = .absent ↔ lookupFS fs p = none := by
  unfold statusOf
  rcases h : lookupFS fs p with _ | e
  · simp
  · rcases e with ⟨f, m⟩; cases f <;> simp

theorem statusOf_svg_iff (fs : FS) (p : String) :
    statusOf fs p = .svgFile ↔ ∃ c m, lookupFS fs p = some ⟨.svg c, m⟩ := by
  unfold statusOf
  rcases h : lookupFS fs p with _ | e
  · simp
  · rcases e with ⟨f, m⟩
    cases f with
    | svg c => simp
    | png r => simp
    | ico l => simp
    | dir => simp
    | other => simp

theorem statusOf_dir_iff (fs : FS) (p : String) :
    statusOf fs p = .directory ↔ ∃ m, lookupFS fs p = some ⟨.dir, m⟩ := by
  unfold statusOf
  rcases h : lookupFS fs p with _ | e
  · simp
  · rcases e with ⟨f, m⟩
    cases f <;> simp [Entry.mk.injEq]

theorem statusOf_otherFile (fs : FS) (p : String) (h : statusOf fs p = .otherFile) :
    ∃ e, lookupFS fs p = some e ∧ (∀ c, e.file ≠ File.svg c) ∧ e.file ≠ File.dir := by
  unfold statusOf at h
  rcases hl : lookupFS fs p with _ | e <;> rw [hl] at h
  · simp at h
  · rcases e with ⟨f, m⟩
    cases f with
    | svg c => simp at h
    | dir => simp at h
    | png r => exact ⟨⟨.png r, m⟩, rfl, by simp, by simp⟩
    | ico l => exact ⟨⟨.ico l, m⟩, rfl, by simp, by simp⟩
    | other => exact ⟨⟨.other, m⟩, rfl, by simp, by simp⟩

theorem srcStatusOf_absent_iff (fs : FS) (p : String) :
    srcStatusOf fs p = .absent ↔ lookupFS fs p = none := by
  unfold srcStatusOf
  rcases h : lookupFS fs p with _ | e
  · simp
  · rcases e with ⟨f, m⟩; cases f <;> simp

theorem srcStatusOf_svg_iff (fs : FS) (p : String) :
    srcStatusOf fs p = .parseableSvg ↔ ∃ c m, lookupFS fs p = some ⟨.svg c, m⟩ := by
  unfold srcStatusOf
  rcases h : lookupFS fs p with _ | e
  · simp
  · rcases e with ⟨f, m⟩
    cases f with
    | svg c => simp
    | png r => simp
    | ico l => simp
    | dir => simp
    | other => simp

theorem srcStatusOf_unparseable (fs : FS) (p : String)
    (h : srcStatusOf fs p = .presentUnparseable) :
    ∃ e, lookupFS fs p = some e ∧ ∀ c, e.file ≠ File.svg c := by
  unfold srcStatusOf at h
  rcases hl : lookupFS fs p with _ | e <;> rw [hl] at h
  · simp at h
  · rcases e with ⟨f, m⟩
    cases f with
    | svg c => simp at h
    | png r => exact ⟨⟨.png r, m⟩, rfl, by simp⟩
    | ico l => exact ⟨⟨.ico l, m⟩, rfl, by simp⟩
    | dir => exact ⟨⟨.dir, m⟩, rfl, by simp⟩
    | other => exact ⟨⟨.other, m⟩, rfl, by simp⟩

theorem winStatusOf_absent_iff (fs : FS) (p : String) :
    winStatusOf fs p = .absent ↔ lookupFS fs p = none := by
  unfold winStatusOf
  rcases h : lookupFS fs p with _ | e
  · simp
  · rcases e with ⟨f, m⟩; cases f <;> simp

theorem winStatusOf_dir_iff (fs : FS) (p : String) :
    winStatusOf fs p = .directory ↔ ∃ m, lookupFS fs p = some ⟨.dir, m⟩ := by
  unfold winStatusOf
  rcases h : lookupFS fs p with _ | e
  · simp
  · rcases e with ⟨f, m⟩
    cases f with
    | svg c => simp
    | png r => simp
    | ico l => simp
    | dir => simp
    | other => simp

theorem winStatusOf_occupied (fs : FS) (p : String)
    (h : winStatusOf fs p = .occupiedNonDir) :
    ∃ e, lookupFS fs p = some e ∧ e.file ≠ File.dir := by
  unfold winStatusOf at h
  rcases hl : lookupFS fs p with _ | e <;> rw [hl] at h
  · simp at h
  · rcases e with ⟨f, m⟩
    cases f with
    | dir => simp at h
    | svg c => exact ⟨⟨.svg c, m⟩, rfl, by simp⟩
    | png r => exact ⟨⟨.png r, m⟩, rfl, by simp⟩
    | ico l => exact ⟨⟨.ico l, m⟩, rfl, by simp⟩
    | other => exact ⟨⟨.other, m⟩, rfl, by simp⟩

/-! ### Lookups into the final filesystem of a successful run -/

theorem successFS_lookup_svg (d : String) (fs : FS) (t c : Nat) :
    lookupFS (successFS d fs t c) (svgPath d) = lookupFS fs (svgPath d) := by
  unfold successFS
  cases hb : pathExists fs (backupPath d) <;>
  cases hw : pathExists fs (winDirPath d) <;>
    simp [hb, hw]

theorem successFS_lookup_png512 (d : String) (fs : FS) (t c : Nat) :
    lookupFS (successFS d fs t c) (png512Path d) = some (sizeEntry c 512 t) := by
  unfold successFS
  cases hb : pathExists fs (backupPath d) <;>
  cases hw : pathExists fs (winDirPath d) <;>
    simp [hb, hw]

theorem successFS_lookup_i256 (d : String) (fs : FS) (t c : Nat) :
    lookupFS (successFS d fs t c) (sizePngPath d 256) = some (sizeEntry c 256 t) := by
  unfold successFS
  cases hb : pathExists fs (backupPath d) <;>
  cases hw : pathExists fs (winDirPath d) <;>
    simp [hb, hw]

theorem successFS_lookup_i128 (d : String) (fs : FS) (t c : Nat) :
    lookupFS (successFS d fs t c) (sizePngPath d 128) = some (sizeEntry c 128 t) := by
  unfold successFS
  cases hb : pathExists fs (backupPath d) <;>
  cases hw : pathExists fs (winDirPath d) <;>
    simp [hb, hw]

theorem successFS_lookup_i64 (d : String) (fs : FS) (t c : Nat) :
    lookupFS (successFS d fs t c) (sizePngPath d 64) = some (sizeEntry c 64 t) := by
  unfold successFS
  cases hb : pathExists fs (backupPath d) <;>
  cases hw : pathExists fs (winDirPath d) <;>
    simp [hb, hw]

theorem successFS_lookup_ico (d : String) (fs : FS) (t c : Nat) :
    lookupFS (successFS d fs t c) (icoFilePath d) =
      some ⟨.ico (icoFrames ⟨512, 512, .fromSvg c 512⟩), t⟩ := by
  unfold successFS
  cases hb : pathExists fs (backupPath d) <;>
  cases hw : pathExists fs (winDirPath d) <;>
    simp [hb, hw]

theorem successFS_lookup_win (d : String) (fs : FS) (t c : Nat) :
    lookupFS (successFS d fs t c) (winDirPath d) =
      if pathExists fs (winDirPath d) then lookupFS fs (winDirPath d)
      else some ⟨.dir, t⟩ := by
  unfold successFS
  cases hb : pathExists fs (backupPath d) <;>
  cases hw : pathExists fs (winDirPath d) <;>
    simp [hb, hw]

theorem successFS_lookup_backup_exists (d : String) (fs : FS) (t c : Nat)
    (hb : pathExists fs (backupPath d) = true) :
    lookupFS (successFS d fs t c) (backupPath d) = lookupFS fs (backupPath d) := by
  unfold successFS
  cases hw : pathExists fs (winDirPath d) <;>
    simp [hb, hw]

theorem successFS_lookup_backup_absent (d : String) (fs : FS) (t c : Nat)
    (hb : pathExists fs (backupPath d) = false) :
    lookupFS (successFS d fs t c) (backupPath d) = some (sizeEntry c 512 t) := by
  unfold successFS
  cases hw : pathExists fs (winDirPath d) <;>
    simp [hb, hw]

/-! ### The claims -/

/-- C1: `create_ico`, given a readable source raster, produces exactly six
resized copies at 256, 128, 64, 48, 32 and 16 pixels square, each obtained
with the LANCZOS resampling filter, and writes a single ICO container
embedding all six frames in descending size order, largest frame first;
the destination entry is the fresh container whatever was there before
(overwrite). -/
theorem create_ico_builds_container (fs : FS) (png_path ico_path : String)
    (t : Nat) (img : Raster) (m : Nat)
    (h : lookupFS fs png_path = some ⟨.png img, m⟩) :
    (create_ico fs png_path ico_path t).2.2 = none ∧
    lookupFS (create_ico fs png_path ico_path t).1 ico_path =
      some ⟨.ico (icoFrames img), t⟩ ∧
    (icoFrames img).length = 6 ∧
    (icoFrames img).map Raster.width = [256, 128, 64, 48, 32, 16] ∧
    (icoFrames img).map Raster.height = [256, 128, 64, 48, 32, 16] ∧
    ∀ r ∈ icoFrames img, r.data = Prov.resized img.data r.width r.height .lanczos := by
  refine ⟨?_, ?_, ?_, ?_, ?_, ?_⟩ <;>
    simp [create_ico, h, icoFrames, ico_sizes, resizeImg]

/-- Witness for C1 at a concrete filesystem holding a 512-pixel raster. -/
theorem create_ico_builds_container_witness :
    (create_ico [("p", ⟨.png ⟨512, 512, .fromSvg 3 512⟩, 9⟩)] "p" "q" 11).2.2 = none ∧
    lookupFS (create_ico [("p", ⟨.png ⟨512, 512, .fromSvg 3 512⟩, 9⟩)] "p" "q" 11).1 "q" =
      some ⟨.ico (icoFrames ⟨512, 512, .fromSvg 3 512⟩), 11⟩ :=
  ⟨(create_ico_builds_container _ "p" "q" 11 ⟨512, 512, .fromSvg 3 512⟩ 9 (by decide)).1,
   (create_ico_builds_container _ "p" "q" 11 ⟨512, 512, .fromSvg 3 512⟩ 9 (by decide)).2.1⟩

/-- C2: in a complete run `main` finishes without error, and the backup is
created exactly when it did not already exist (the 512-pixel PNG having
just been written): when the backup already exists its entry — contents
and timestamp — is returned untouched and no copy to it happens; when it
is absent, the 512-pixel PNG entry is copied to it; and a second run
performed immediately after leaves the backup entry of the first run
unchanged, so across runs the backup is created at most once and never
overwritten. -/
theorem backup_created_iff_absent (d : String) (fs : FS) (t t2 c m : Nat)
    (hsvg : lookupFS fs (svgPath d) = some ⟨.svg c, m⟩)
    (hwin : lookupFS fs (winDirPath d) = none ∨
            ∃ mw, lookupFS fs (winDirPath d) = some ⟨.dir, mw⟩) :
    (main true d fs t).2.2 = none ∧
    (pathExists fs (backupPath d) = true →
       lookupFS (main true d fs t).1 (backupPath d) = lookupFS fs (backupPath d) ∧
       ∀ src, Event.copyFile src (backupPath d) ∉ (main true d fs t).2.1) ∧
    (pathExists fs (backupPath d) = false →
       lookupFS (main true d fs t).1 (backupPath d) = some (sizeEntry c 512 t) ∧
       Event.copyFile (png512Path d) (backupPath d) ∈ (main true d fs t).2.1) ∧
    lookupFS (main true d (main true d fs t).1 t2).1 (backupPath d) =
      lookupFS (main true d fs t).1 (backupPath d) := by
  have h0 := main_success d fs t c m hsvg hwin
  have hsvg2 : lookupFS (successFS d fs t c) (svgPath d) = some ⟨.svg c, m⟩ := by
    rw [successFS_lookup_svg]; exact hsvg
  have hwin2 : lookupFS (successFS d fs t c) (winDirPath d) = none ∨
      ∃ mw, lookupFS (successFS d fs t c) (winDirPath d) = some ⟨.dir, mw⟩ := by
    rw [successFS_lookup_win]
    rcases hwin with hw | ⟨mw, hw⟩
    · right
      rw [if_neg (by simp [pathExists, hw])]
      exact ⟨t, rfl⟩
    · right
      rw [if_pos (by simp [pathExists, hw])]
      exact ⟨mw, hw⟩
  have hbex2 : pathExists (successFS d fs t c) (backupPath d) = true := by
    cases hb : pathExists fs (backupPath d)
    · simp [pathExists, successFS_lookup_backup_absent d fs t c hb]
    · unfold pathExists at hb ⊢
      rw [successFS_lookup_backup_exists d fs t c (by exact hb)]
      exact hb
  have h1 := main_success d (successFS d fs t c) t2 c m hsvg2 hwin2
  refine ⟨by rw [h0], ?_, ?_, ?_⟩
  · intro hb
    constructor
    · rw [h0]; exact successFS_lookup_backup_exists d fs t c hb
    · intro src
      rw [h0]
      cases hw : pathExists fs (winDirPath d) <;>
        simp [successEvents, summaryEvents, hb, hw]
  · intro hb
    constructor
    · rw [h0]; exact successFS_lookup_backup_absent d fs t c hb
    · rw [h0]
      cases hw : pathExists fs (winDirPath d) <;>
        simp [successEvents, summaryEvents, hb, hw]
  · rw [h0, h1]
    exact successFS_lookup_backup_exists d (successFS d fs t c) t2 c hbex2

/-- Witness for C2: a first run on a filesystem holding only the SVG
creates the backup; the entry is present afterwards. -/
theorem backup_created_iff_absent_witness :
    lookupFS (main true "b" [(svgPath "b", ⟨.svg 5, 1⟩)] 7).1 (backupPath "b") =
      some (sizeEntry 5 512 7) :=
  ((backup_created_iff_absent "b" [(svgPath "b", ⟨.svg 5, 1⟩)] 7 8 5 1
      (by decide) (Or.inl (by decide))).2.2.1 (by decide)).1

/-- C3: with the required libraries unavailable at startup, the script
prints the installation guidance, performs no file operation (the
filesystem is returned unchanged and no path is written), and finishes
without an unhandled error. -/
theorem missing_deps_no_side_effects (d : String) (fs : FS) (t : Nat) :
    runScript false d fs t = (fs, [.print depsMsg1, .print depsMsg2], none) ∧
    writtenPaths (runScript false d fs t).2.1 = [] := by
  constructor <;> simp [runScript, main, writtenPaths]

/-- C4: with dependencies present but the source vector file absent at the
computed path, `main` prints an error message naming that path and stops:
the filesystem is unchanged, nothing is written, and no unhandled error is
raised. -/
theorem missing_src_stops_early (d : String) (fs : FS) (t : Nat)
    (h : lookupFS fs (svgPath d) = none) :
    main true d fs t = (fs, [.print (missingSrcMsg (svgPath d))], none) ∧
    writtenPaths (main true d fs t).2.1 = [] ∧
    ∃ s, missingSrcMsg (svgPath d) = s ++ svgPath d := by
  have h0 := main_missing_src d fs t h
  refine ⟨h0, ?_, "error: cannot find ", rfl⟩
  rw [h0]
  simp [writtenPaths]

/-- Witness for C4 on the empty filesystem. -/
theorem missing_src_stops_early_witness :
    main true "b" [] 0 = ([], [.print (missingSrcMsg (svgPath "b"))], none) :=
  (missing_src_stops_early "b" [] 0 (by decide)).1

/-- C5: `svg_to_png` at any requested size `s` writes a raster whose width
and height both equal `s`; in a complete run the four PNG outputs measure
512, 256, 128 and 64 pixels square; and every PNG in the resulting
filesystem is either square or is an entry of the initial filesystem left
untouched. -/
theorem raster_outputs_square (d : String) (fs : FS) (t c m : Nat)
    (hsvg : lookupFS fs (svgPath d) = some ⟨.svg c, m⟩)
    (hwin : lookupFS fs (winDirPath d) = none ∨
            ∃ mw, lookupFS fs (winDirPath d) = some ⟨.dir, mw⟩) :
    (∀ (fs0 : FS) (sp pp : String) (sz t0 c0 m0 : Nat),
       lookupFS fs0 sp = some ⟨.svg c0, m0⟩ →
       lookupFS (svg_to_png fs0 sp pp sz t0).1 pp =
         some ⟨.png ⟨sz, sz, .fromSvg c0 sz⟩, t0⟩) ∧
    lookupFS (main true d fs t).1 (png512Path d) =
      some ⟨.png ⟨512, 512, .fromSvg c 512⟩, t⟩ ∧
    lookupFS (main true d fs t).1 (sizePngPath d 256) =
      some ⟨.png ⟨256, 256, .fromSvg c 256⟩, t⟩ ∧
    lookupFS (main true d fs t).1 (sizePngPath d 128) =
      some ⟨.png ⟨128, 128, .fromSvg c 128⟩, t⟩ ∧
    lookupFS (main true d fs t).1 (sizePngPath d 64) =
      some ⟨.png ⟨64, 64, .fromSvg c 64⟩, t⟩ ∧
    (∀ (p : String) (r : Raster) (mp : Nat),
       lookupFS (main true d fs t).1 p = some ⟨.png r, mp⟩ →
       lookupFS fs p = some ⟨.png r, mp⟩ ∨ r.width = r.height) := by
  have h0 := main_success d fs t c m hsvg hwin
  refine ⟨?_, ?_, ?_, ?_, ?_, ?_⟩
  · intro fs0 sp pp sz t0 c0 m0 h
    simp [svg_to_png, h]
  · rw [h0]; exact successFS_lookup_png512 d fs t c
  · rw [h0]; exact successFS_lookup_i256 d fs t c
  · rw [h0]; exact successFS_lookup_i128 d fs t c
  · rw [h0]; exact successFS_lookup_i64 d fs t c
  · intro p r mp h
    rw [h0] at h
    unfold successFS at h
    cases hb : pathExists fs (backupPath d) <;>
    cases hw : pathExists fs (winDirPath d) <;>
      rw [hb, hw] at h <;>
      simp only [if_true, if_false, Bool.false_eq_true, lookupFS_write] at h <;>
      split_ifs at h <;>
      first
      | (left; exact h)
      | (right; simp [sizeEntry] at h; simp [← h.1])
      | simp [sizeEntry] at h

/-- Witness for C5: the four outputs of a concrete run. -/
theorem raster_outputs_square_witness :
    lookupFS (main true "b" [(svgPath "b", ⟨.svg 5, 1⟩)] 7).1 (png512Path "b") =
      some ⟨.png ⟨512, 512, .fromSvg 5 512⟩, 7⟩ ∧
    lookupFS (main true "b" [(svgPath "b", ⟨.svg 5, 1⟩)] 7).1 (sizePngPath "b" 64) =
      some ⟨.png ⟨64, 64, .fromSvg 5 64⟩, 7⟩ :=
  ⟨(raster_outputs_square "b" [(svgPath "b", ⟨.svg 5, 1⟩)] 7 5 1
      (by decide) (Or.inl (by decide))).2.1,
   (raster_outputs_square "b" [(svgPath "b", ⟨.svg 5, 1⟩)] 7 5 1
      (by decide) (Or.inl (by decide))).2.2.2.2.1⟩

/-- C6: each size-named PNG (256, 128, 64) of a complete run holds a raster
rendered directly from the SVG content at that size — a `fromSvg`
provenance, which is never equal to any `resized` provenance, so none of
them is a downscale of the 512-pixel raster. -/
theorem smaller_pngs_rasterised_directly (d : String) (fs : FS) (t c m : Nat)
    (hsvg : lookupFS fs (svgPath d) = some ⟨.svg c, m⟩)
    (hwin : lookupFS fs (winDirPath d) = none ∨
            ∃ mw, lookupFS fs (winDirPath d) = some ⟨.dir, mw⟩) :
    ∀ s ∈ png_sizes,
      lookupFS (main true d fs t).1 (sizePngPath d s) =
        some ⟨.png ⟨s, s, .fromSvg c s⟩, t⟩ ∧
      ∀ (pr : Prov) (w h : Nat) (f : Resampling),
        Prov.fromSvg c s ≠ Prov.resized pr w h f := by
  have h0 := main_success d fs t c m hsvg hwin
  intro s hs
  have hs3 : s = 256 ∨ s = 128 ∨ s = 64 := by
    simpa [png_sizes] using hs
  rcases hs3 with rfl | rfl | rfl
  · exact ⟨by rw [h0]; exact successFS_lookup_i256 d fs t c, by intro pr w h f; simp⟩
  · exact ⟨by rw [h0]; exact successFS_lookup_i128 d fs t c, by intro pr w h f; simp⟩
  · exact ⟨by rw [h0]; exact successFS_lookup_i64 d fs t c, by intro pr w h f; simp⟩

/-- Witness for C6: the 256-pixel PNG of a concrete run is a direct
rendering. -/
theorem smaller_pngs_rasterised_directly_witness :
    lookupFS (main true "b" [(svgPath "b", ⟨.svg 5, 1⟩)] 7).1 (sizePngPath "b" 256) =
      some ⟨.png ⟨256, 256, .fromSvg 5 256⟩, 7⟩ :=
  ((smaller_pngs_rasterised_directly "b" [(svgPath "b", ⟨.svg 5, 1⟩)] 7 5 1
      (by decide) (Or.inl (by decide))) 256 (by decide)).1

/-- C7: `mkdir(exist_ok=True)` on the platform-assets subdirectory creates
it when the path is free and raises no error when the directory is already
present; moreover in a full run starting without the `windows` directory,
`main` finishes without error and the directory exists afterwards. -/
theorem mkdir_exist_ok_spec (fs : FS) (p : String) (t : Nat) :
    (lookupFS fs p = none →
       mkdir_exist_ok fs p t = (writeFS fs p ⟨.dir, t⟩, [.mkdir p], none)) ∧
    (∀ m, lookupFS fs p = some ⟨.dir, m⟩ →
       mkdir_exist_ok fs p t = (fs, [], none)) ∧
    (∀ (d : String) (fs2 : FS) (t2 c m2 : Nat),
       lookupFS fs2 (svgPath d) = some ⟨.svg c, m2⟩ →
       lookupFS fs2 (winDirPath d) = none →
       (main true d fs2 t2).2.2 = none ∧
       lookupFS (main true d fs2 t2).1 (winDirPath d) = some ⟨.dir, t2⟩) := by
  refine ⟨?_, ?_, ?_⟩
  · intro h; simp [mkdir_exist_ok, h]
  · intro m h; simp [mkdir_exist_ok, h]
  · intro d fs2 t2 c m2 hsvg hwin
    have h0 := main_success d fs2 t2 c m2 hsvg (Or.inl hwin)
    rw [h0]
    refine ⟨rfl, ?_⟩
    rcases hob : lookupFS fs2 (backupPath d) with _ | e <;>
      simp [successFS, pathExists, hwin, hob]

/-- Witness for C7: directory creation and the no-error re-run at concrete
inputs. -/
theorem mkdir_exist_ok_spec_witness :
    mkdir_exist_ok [] "w" 4 = (writeFS [] "w" ⟨.dir, 4⟩, [.mkdir "w"], none) ∧
    mkdir_exist_ok [("w", ⟨.dir, 2⟩)] "w" 4 = ([("w", ⟨.dir, 2⟩)], [], none) ∧
    lookupFS (main true "b" [(svgPath "b", ⟨.svg 5, 1⟩)] 7).1 (winDirPath "b") =
      some ⟨.dir, 7⟩ :=
  ⟨(mkdir_exist_ok_spec [] "w" 4).1 (by decide),
   (mkdir_exist_ok_spec [("w", ⟨.dir, 2⟩)] "w" 4).2.1 2 (by decide),
   ((mkdir_exist_ok_spec [] "w" 4).2.2 "b" [(svgPath "b", ⟨.svg 5, 1⟩)] 7 5 1
      (by decide) (by decide)).2⟩

/-- C8: failures other than the two recognized ones are unhandled and
propagate: `svg_to_png` raises when the source path is absent or when the
entry there is not parseable as SVG, `create_ico` raises when its source
raster cannot be opened, and `main` propagates an unparseable-source
error out of the run. -/
theorem unhandled_errors_propagate :
    (∀ (fs : FS) (sp pp : String) (sz t : Nat),
       lookupFS fs sp = none →
       svg_to_png fs sp pp sz t = (fs, [], some (.svgNotFound sp))) ∧
    (∀ (fs : FS) (sp pp : String) (sz t : Nat) (e : Entry),
       lookupFS fs sp = some e → (∀ c, e.file ≠ File.svg c) →
       svg_to_png fs sp pp sz t = (fs, [], some (.svgNotParseable sp))) ∧
    (∀ (fs : FS) (pp ip : String) (t : Nat),
       lookupFS fs pp = none →
       create_ico fs pp ip t = (fs, [], some (.cannotOpen pp))) ∧
    (∀ (d : String) (fs : FS) (t : Nat) (e : Entry),
       lookupFS fs (svgPath d) = some e → (∀ c, e.file ≠ File.svg c) →
       (main true d fs t).2.2 = some (.svgNotParseable (svgPath d))) := by
  refine ⟨?_, ?_, ?_, ?_⟩
  · intro fs sp pp sz t h; simp [svg_to_png, h]
  · intro fs sp pp sz t e h hne
    rcases e with ⟨f, m⟩
    cases f with
    | svg c => exact absurd rfl (hne c)
    | png r => simp [svg_to_png, h]
    | ico l => simp [svg_to_png, h]
    | dir => simp [svg_to_png, h]
    | other => simp [svg_to_png, h]
  · intro fs pp ip t h; simp [create_ico, h]
  · intro d fs t e h hne
    rw [main_bad_src d fs t e h hne]

/-- Witness for C8: each unhandled failure at a concrete input. -/
theorem unhandled_errors_propagate_witness :
    svg_to_png [] "a" "b" 512 0 = ([], [], some (.svgNotFound "a")) ∧
    svg_to_png [("a", ⟨.other, 0⟩)] "a" "b" 512 0 =
      ([("a", ⟨.other, 0⟩)], [], some (.svgNotParseable "a")) ∧
    create_ico [] "a" "b" 0 = ([], [], some (.cannotOpen "a")) ∧
    (main true "b" [(svgPath "b", ⟨.other, 0⟩)] 0).2.2 =
      some (.svgNotParseable (svgPath "b")) :=
  ⟨unhandled_errors_propagate.1 [] "a" "b" 512 0 (by decide),
   unhandled_errors_propagate.2.1 [("a", ⟨.other, 0⟩)] "a" "b" 512 0 ⟨.other, 0⟩
     (by decide) (by intro c; simp),
   unhandled_errors_propagate.2.2.1 [] "a" "b" 0 (by decide),
   unhandled_errors_propagate.2.2.2 "b" [(svgPath "b", ⟨.other, 0⟩)] 0 ⟨.other, 0⟩
     (by decide) (by intro c; simp)⟩

/-- C9 (counterexample): two filesystems agreeing on the presence of the
dependency libraries (present in both runs), of the source vector file
(present in both) and of the backup file (absent in both), on which `main`
nevertheless executes different steps and produces different sets of
output files: in the first the present source parses as SVG and the six
outputs are written, in the second the present source is unparseable, the
run dies with an unhandled error and nothing is written. -/
theorem presence_does_not_determine_behavior :
    pathExists [(svgPath "b", (⟨.svg 0, 0⟩ : Entry))] (svgPath "b") =
      pathExists [(svgPath "b", (⟨.other, 0⟩ : Entry))] (svgPath "b") ∧
    pathExists [(svgPath "b", (⟨.svg 0, 0⟩ : Entry))] (backupPath "b") =
      pathExists [(svgPath "b", (⟨.other, 0⟩ : Entry))] (backupPath "b") ∧
    (main true "b" [(svgPath "b", ⟨.svg 0, 0⟩)] 0).2.2 = none ∧
    (main true "b" [(svgPath "b", ⟨.other, 0⟩)] 0).2.2 ≠ none ∧
    writtenPaths (main true "b" [(svgPath "b", ⟨.svg 0, 0⟩)] 0).2.1 ≠
      writtenPaths (main true "b" [(svgPath "b", ⟨.other, 0⟩)] 0).2.1 := by
  decide

/-- C9 (amended): the event sequence, the error outcome and the set of
written paths of a run are fully determined by the dependency presence,
the status of the source-vector path (absent, parseable SVG, or present
but unparseable), the status of the `windows` path (absent, directory, or
occupied by a non-directory) and the presence of the backup file: two
runs agreeing on those observations produce identical event traces,
identical error outcomes and identical written-path lists, whatever the
file contents and the rest of the filesystem. -/
theorem behavior_determined_by_status (hasDeps : Bool) (d : String)
    (fs1 fs2 : FS) (t1 t2 : Nat)
    (hsvg : srcStatusOf fs1 (svgPath d) = srcStatusOf fs2 (svgPath d))
    (hwin : winStatusOf fs1 (winDirPath d) = winStatusOf fs2 (winDirPath d))
    (hb : pathExists fs1 (backupPath d) = pathExists fs2 (backupPath d)) :
    (main hasDeps d fs1 t1).2.1 = (main hasDeps d fs2 t2).2.1 ∧
    (main hasDeps d fs1 t1).2.2 = (main hasDeps d fs2 t2).2.2 ∧
    writtenPaths (main hasDeps d fs1 t1).2.1 =
      writtenPaths (main hasDeps d fs2 t2).2.1 := by
  cases hasDeps
  · simp [main]
  · cases hst : srcStatusOf fs1 (svgPath d)
    case absent =>
      have h1 := (srcStatusOf_absent_iff fs1 (svgPath d)).1 hst
      have h2 := (srcStatusOf_absent_iff fs2 (svgPath d)).1 (hsvg.symm.trans hst)
      rw [main_missing_src d fs1 t1 h1, main_missing_src d fs2 t2 h2]
      exact ⟨rfl, rfl, rfl⟩
    case parseableSvg =>
      obtain ⟨c1, m1, h1⟩ := (srcStatusOf_svg_iff fs1 (svgPath d)).1 hst
      obtain ⟨c2, m2, h2⟩ := (srcStatusOf_svg_iff fs2 (svgPath d)).1 (hsvg.symm.trans hst)
      cases hwst : winStatusOf fs1 (winDirPath d)
      case absent =>
        have hw1 := (winStatusOf_absent_iff fs1 (winDirPath d)).1 hwst
        have hw2 := (winStatusOf_absent_iff fs2 (winDirPath d)).1 (hwin.symm.trans hwst)
        rw [main_success d fs1 t1 c1 m1 h1 (Or.inl hw1),
            main_success d fs2 t2 c2 m2 h2 (Or.inl hw2)]
        have e1 : pathExists fs1 (winDirPath d) = false := by simp [pathExists, hw1]
        have e2 : pathExists fs2 (winDirPath d) = false := by simp [pathExists, hw2]
        rw [e1, e2, hb]
        exact ⟨rfl, rfl, rfl⟩
      case directory =>
        obtain ⟨mw1, hw1⟩ := (winStatusOf_dir_iff fs1 (winDirPath d)).1 hwst
        obtain ⟨mw2, hw2⟩ := (winStatusOf_dir_iff fs2 (winDirPath d)).1 (hwin.symm.trans hwst)
        rw [main_success d fs1 t1 c1 m1 h1 (Or.inr ⟨mw1, hw1⟩),
            main_success d fs2 t2 c2 m2 h2 (Or.inr ⟨mw2, hw2⟩)]
        have e1 : pathExists fs1 (winDirPath d) = true := by simp [pathExists, hw1]
        have e2 : pathExists fs2 (winDirPath d) = true := by simp [pathExists, hw2]
        rw [e1, e2, hb]
        exact ⟨rfl, rfl, rfl⟩
      case occupiedNonDir =>
        obtain ⟨ew1, hw1, hwd1⟩ := winStatusOf_occupied fs1 (winDirPath d) hwst
        obtain ⟨ew2, hw2, hwd2⟩ :=
          winStatusOf_occupied fs2 (winDirPath d) (hwin.symm.trans hwst)
        rw [main_win_occupied d fs1 t1 c1 m1 ew1 h1 hw1 hwd1,
            main_win_occupied d fs2 t2 c2 m2 ew2 h2 hw2 hwd2]
        exact ⟨rfl, rfl, rfl⟩
    case presentUnparseable =>
      obtain ⟨e1, h1, hne1⟩ := srcStatusOf_unparseable fs1 (svgPath d) hst
      obtain ⟨e2, h2, hne2⟩ :=
        srcStatusOf_unparseable fs2 (svgPath d) (hsvg.symm.trans hst)
      rw [main_bad_src d fs1 t1 e1 h1 hne1, main_bad_src d fs2 t2 e2 h2 hne2]
      exact ⟨rfl, rfl, rfl⟩

/-- Witness for the amended C9: two runs on sources with different SVG
contents and timestamps but equal statuses produce the same trace. -/
theorem behavior_determined_by_status_witness :
    (main true "b" [(svgPath "b", ⟨.svg 1, 0⟩)] 3).2.1 =
      (main true "b" [(svgPath "b", ⟨.svg 2, 9⟩)] 4).2.1 :=
  (behavior_determined_by_status true "b"
      [(svgPath "b", ⟨.svg 1, 0⟩)] [(svgPath "b", ⟨.svg 2, 9⟩)] 3 4
      (by decide) (by decide) (by decide)).1

/-- C10: the backup copy is the last file-producing step of every run:
whenever the backup path is among the produced files, the produced-file
sequence is exactly the 512-pixel PNG, the three smaller PNGs, the ICO
container and then the backup, in that order with the backup last; and a
run that ends in an unhandled error never produces the backup. -/
theorem backup_is_last_file_step (hasDeps : Bool) (d : String) (fs : FS) (t : Nat) :
    ((main hasDeps d fs t).2.2 ≠ none →
       backupPath d ∉ writtenPaths (main hasDeps d fs t).2.1) ∧
    (backupPath d ∈ writtenPaths (main hasDeps d fs t).2.1 →
       writtenPaths (main hasDeps d fs t).2.1 =
         [png512Path d, sizePngPath d 256, sizePngPath d 128, sizePngPath d 64,
          icoFilePath d, backupPath d]) := by
  cases hasDeps
  · rw [main_no_deps]
    exact ⟨fun h => absurd rfl h, fun h => absurd h (by simp [writtenPaths])⟩
  · cases hst : statusOf fs (svgPath d)
    case absent =>
      rw [main_missing_src d fs t ((statusOf_absent_iff fs (svgPath d)).1 hst)]
      exact ⟨fun h => absurd rfl h, fun h => absurd h (by simp [writtenPaths])⟩
    case svgFile =>
      obtain ⟨c, m, h1⟩ := (statusOf_svg_iff fs (svgPath d)).1 hst
      cases hwst : statusOf fs (winDirPath d)
      case absent =>
        have hw1 := (statusOf_absent_iff fs (winDirPath d)).1 hwst
        have e1 : pathExists fs (winDirPath d) = false := by simp [pathExists, hw1]
        rw [main_success d fs t c m h1 (Or.inl hw1)]
        refine ⟨fun h => absurd rfl h, fun h => ?_⟩
        cases hob : pathExists fs (backupPath d)
        · simp only [e1, hob] at h ⊢
          simp [successEvents, summaryEvents, writtenPaths]
        · simp only [e1, hob] at h
          simp [successEvents, summaryEvents, writtenPaths] at h
      case directory =>
        obtain ⟨mw, hw1⟩ := (statusOf_dir_iff fs (winDirPath d)).1 hwst
        have e1 : pathExists fs (winDirPath d) = true := by simp [pathExists, hw1]
        rw [main_success d fs t c m h1 (Or.inr ⟨mw, hw1⟩)]
        refine ⟨fun h => absurd rfl h, fun h => ?_⟩
        cases hob : pathExists fs (backupPath d)
        · simp only [e1, hob] at h ⊢
          simp [successEvents, summaryEvents, writtenPaths]
        · simp only [e1, hob] at h
          simp [successEvents, summaryEvents, writtenPaths] at h
      case svgFile =>
        obtain ⟨cw, mw, hw1⟩ := (statusOf_svg_iff fs (winDirPath d)).1 hwst
        rw [main_win_occupied d fs t c m ⟨.svg cw, mw⟩ h1 hw1 (by simp)]
        constructor
        · intro _
          simp [prefixEvents, writtenPaths]
        · intro h
          exact absurd h (by simp [prefixEvents, writtenPaths])
      case otherFile =>
        obtain ⟨ew, hw1, _, hwd⟩ := statusOf_otherFile fs (winDirPath d) hwst
        rw [main_win_occupied d fs t c m ew h1 hw1 hwd]
        constructor
        · intro _
          simp [prefixEvents, writtenPaths]
        · intro h
          exact absurd h (by simp [prefixEvents, writtenPaths])
    case directory =>
      obtain ⟨m, h1⟩ := (statusOf_dir_iff fs (svgPath d)).1 hst
      rw [main_bad_src d fs t ⟨.dir, m⟩ h1 (by simp)]
      exact ⟨fun _ => by simp [writtenPaths], fun h => absurd h (by simp [writtenPaths])⟩
    case otherFile =>
      obtain ⟨e, h1, hne, _⟩ := statusOf_otherFile fs (svgPath d) hst
      rw [main_bad_src d fs t e h1 hne]
      exact ⟨fun _ => by simp [writtenPaths], fun h => absurd h (by simp [writtenPaths])⟩

/-- Witness for C10: a run that dies on an unparseable source produces no
backup, and a complete first run produces the six files with the backup
last. -/
theorem backup_is_last_file_step_witness :
    backupPath "b" ∉ writtenPaths (main true "b" [(svgPath "b", ⟨.other, 0⟩)] 0).2.1 ∧
    writtenPaths (main true "b" [(svgPath "b", ⟨.svg 5, 1⟩)] 7).2.1 =
      [png512Path "b", sizePngPath "b" 256, sizePngPath "b" 128, sizePngPath "b" 64,
       icoFilePath "b", backupPath "b"] :=
  ⟨(backup_is_last_file_step true "b" [(svgPath "b", ⟨.other, 0⟩)] 0).1 (by decide),
   (backup_is_last_file_step true "b" [(svgPath "b", ⟨.svg 5, 1⟩)] 7).2 (by decide)⟩

end IconGen
